import Mathlib

/-!
Verification development for the Hotelix conversational hotel-recommendation
assistant.  The Python sources are shallowly embedded: dictionaries become
structures with `Option`-valued fields (a missing key is `none`), Python
floats become `Rat`, Python truthiness (`x or y`, `if x:`) is modelled by
explicit `pyOr...` helpers, and code that can raise (`int()` on a
non-numeric string) returns `Except`.
-/

deriving instance DecidableEq for Except

/-- Value of a review-count field in a hotel record.  The scoring code feeds
it to Python `int(...)`, which succeeds on integers and integer-strings and
raises otherwise, so the embedding keeps integers and strings apart. -/
inductive RVal where
  | none
  | int (n : Int)
  | str (s : String)
deriving DecidableEq, Repr

/-- Python truthiness of a review-count value (`None`, `0` and `""` are falsy). -/
def RVal.truthy : RVal → Bool
  | .none => false
  | .int n => n ≠ 0
  | .str s => s ≠ ""

/-- Python `x or y` on review-count values. -/
def pyOrR (a b : RVal) : RVal := if a.truthy then a else b

/-- Digits of a decimal numeral, or `none` when the character list is empty
or contains a non-digit. -/
def natOfDigits (l : List Char) : Option Nat :=
  if l ≠ [] ∧ l.all Char.isDigit then
    some (l.foldl (fun acc c => acc * 10 + (c.toNat - 48)) 0)
  else none

/-- Model of Python `int(s)` on a string: optional surrounding whitespace,
optional sign, then decimal digits; anything else raises (here: `none`).
Digit-group underscores are not modelled. -/
def pyParseInt (s : String) : Option Int :=
  match s.trim.toList with
  | '+' :: rest => (natOfDigits rest).map Int.ofNat
  | '-' :: rest => (natOfDigits rest).map (fun n => -(n : Int))
  | l => (natOfDigits l).map Int.ofNat

/-- Numeric value of a (possibly empty) digit list, empty meaning 0.  Used
for the integer and fractional parts of a decimal literal. -/
def digitsVal (l : List Char) : Nat :=
  l.foldl (fun acc c => acc * 10 + (c.toNat - 48)) 0

/-- Unsigned decimal literal: `12`, `12.5`, `12.`, `.5`; at most one dot,
only digits otherwise, and not the empty or lone-dot string. -/
def parseUnsignedFloat (l : List Char) : Option Rat :=
  let intPart := l.takeWhile (fun c => c ≠ '.')
  let rest := l.dropWhile (fun c => c ≠ '.')
  match rest with
  | [] => (natOfDigits l).map (fun n => (n : Rat))
  | _ :: frac =>
    if frac.contains '.' then none
    else if intPart = [] ∧ frac = [] then none
    else if intPart.all Char.isDigit ∧ frac.all Char.isDigit then
      some ((digitsVal intPart : Rat) + (digitsVal frac : Rat) / ((10 : Rat) ^ frac.length))
    else none

/-- Model of Python `float(s)` on a string: optional whitespace and sign,
then a plain decimal literal.  Exponents, `inf` and `nan` are not modelled. -/
def pyParseFloat (s : String) : Option Rat :=
  match s.trim.toList with
  | '+' :: rest => parseUnsignedFloat rest
  | '-' :: rest => (parseUnsignedFloat rest).map Neg.neg
  | l => parseUnsignedFloat l

/-- Python `x or y` on optional numbers (`None` and `0.0` are falsy). -/
def pyOrQ (a b : Option Rat) : Option Rat :=
  match a with
  | some q => if q = 0 then b else some q
  | none => b

/-- Python `x or y` on optional strings (`None` and `""` are falsy). -/
def pyOrS (a b : Option String) : Option String :=
  match a with
  | some s => if s = "" then b else some s
  | none => b

/-- Python `x or y` on optional integers (`None` and `0` are falsy). -/
def pyOrI (a b : Option Int) : Option Int :=
  match a with
  | some n => if n = 0 then b else some n
  | none => b

/-- The scoring helper `_to_float(value)` with its default of `0.0`, on the
numeric-or-absent values the engine reads from hotel records. -/
def toFloatD (v : Option Rat) : Rat := v.getD 0

/-- Python `int(...)` applied to a review-count value; raising becomes
`Except.error`. -/
def pyIntOfRVal : RVal → Except Unit Int
  | .int n => .ok n
  | .none => .error ()
  | .str s =>
    match pyParseInt s with
    | some n => .ok n
    | Option.none => .error ()

/-- Canonical hotel offer as consumed by `RecommendationEngine` and produced
by the Makcorps normalizers.  Each field is one dictionary key; `none` means
the key is absent (or `None`).  The debug-only `raw` payload is not
modelled; scoring never reads it. -/
structure Hotel where
  vendor_name : Option String := none
  hotel_id : Option Int := none
  price : Option Rat := none
  price_str : Option String := none
  price_per_night : Option Rat := none
  total_price : Option Rat := none
  rating : Option Rat := none
  rating_raw : Option Rat := none
  rating_count : RVal := .none
  total_rating_count : RVal := .none
  amenities : Option (List String) := none
  location : Option String := none
  telephone : Option String := none
  affiliate_url : Option String := none
deriving DecidableEq, Repr

/-- User preferences dictionary handed to `rank_hotels` (the view passes a
numeric-or-`None` `budget_max` and a list `preferences`). -/
structure Prefs where
  budget_max : Option Rat := none
  preferences : Option (List String) := none
deriving DecidableEq, Repr

/-- `_to_float(hotel.get('price') or hotel.get('price_per_night'))`. -/
def effPrice (h : Hotel) : Rat := toFloatD (pyOrQ h.price h.price_per_night)

/-- `_to_float(hotel.get('rating') or hotel.get('rating_raw'))`. -/
def effRating (h : Hotel) : Rat := toFloatD (pyOrQ h.rating h.rating_raw)

/-- Price-vs-budget factor of `calculate_score` (weight 30). -/
def priceFactor (p : Prefs) (h : Hotel) : Rat :=
  let budget := toFloatD p.budget_max
  let price := effPrice h
  if budget > 0 then
    if price ≤ budget then 30 * (1 - price / budget) else -5
  else 15

/-- `rating10 = max(0.0, min(rating_raw * 2.0, 10.0))`. -/
def rating10 (r : Rat) : Rat := max 0 (min (r * 2) 10)

/-- Rating factor of `calculate_score`: `rating10 * 2.5` (weight 25). -/
def ratingFactor (r : Rat) : Rat := rating10 r * (5 / 2)

/-- `set(hotel.get('amenities') or [])`. -/
def effAmenities (h : Hotel) : List String := (h.amenities.getD []).dedup

/-- `set(user_prefs.get('preferences') or [])`. -/
def effPrefAmenities (p : Prefs) : List String := (p.preferences.getD []).dedup

/-- Amenity-match factor of `calculate_score` (weight 20): proportional
credit when both sets are non-empty, flat `+10` otherwise. -/
def amenityFactor (p : Prefs) (h : Hotel) : Rat :=
  let ha := effAmenities h
  let pa := effPrefAmenities p
  if pa ≠ [] ∧ ha ≠ [] then
    ((ha.filter (fun a => pa.contains a)).length : Rat) / (pa.length : Rat) * 20
  else 10

/-- Quality-bonus table of `calculate_score` (weight 10). -/
def qualityBonus (r10 : Rat) : Rat :=
  if r10 ≥ 9 then 10
  else if r10 ≥ 17 / 2 then 7
  else if r10 ≥ 8 then 3
  else 0

/-- Review-count tier of `calculate_score` (weight 15).  In the source the
quality-bonus block is indented inside the final `else:` branch, so the
bonus is only ever added when `review_count <= 50`. -/
def reviewFactor (rc : Int) (r10 : Rat) : Rat :=
  if rc > 100 then 15
  else if rc > 50 then 10
  else 5 + qualityBonus r10

/-- The effective review-count value
`hotel.get('rating_count') or hotel.get('total_rating_count') or 0`. -/
def effReviewVal (h : Hotel) : RVal :=
  pyOrR (pyOrR h.rating_count h.total_rating_count) (RVal.int 0)

/-- `calculate_score(hotel)` from `RecommendationEngine.rank_hotels`.  The
`int(...)` conversion of the review count can raise, which aborts the score
computation (`Except.error`). -/
def calculateScore (p : Prefs) (h : Hotel) : Except Unit Rat :=
  match pyIntOfRVal (effReviewVal h) with
  | .error e => .error e
  | .ok rc =>
    .ok (priceFactor p h + ratingFactor (effRating h) + amenityFactor p h +
      reviewFactor rc (rating10 (effRating h)))

/-- Refinement comparison definition following the spec wording: the same
four factors, but the quality bonus applied unconditionally as a fifth
additive factor (30+25+20+15+10). -/
def specScoreUnconditional (p : Prefs) (h : Hotel) : Except Unit Rat :=
  match pyIntOfRVal (effReviewVal h) with
  | .error e => .error e
  | .ok rc =>
    .ok (priceFactor p h + ratingFactor (effRating h) + amenityFactor p h +
      (if rc > 100 then (15 : Rat) else if rc > 50 then 10 else 5) +
      qualityBonus (rating10 (effRating h)))

/-- One scored entry of `rank_hotels`: the offer paired with its score
(the copied dict with the added `score` key). -/
def scorePair (p : Prefs) (h : Hotel) : Except Unit (Hotel × Rat) :=
  (calculateScore p h).map (fun s => (h, s))

/-- The `scored_hotels` list built by the `for hotel in hotels` loop of
`rank_hotels` before sorting; an offer whose scoring raises aborts the
whole batch. -/
def scoredList (p : Prefs) : List Hotel → Except Unit (List (Hotel × Rat))
  | [] => .ok []
  | h :: t =>
    match scorePair p h, scoredList p t with
    | .error e, _ => .error e
    | .ok _, .error e => .error e
    | .ok x, .ok xs => .ok (x :: xs)

/-- Sort relation of `sorted(..., key=score, reverse=True)`: descending by
score. -/
def scoreGe (a b : Hotel × Rat) : Prop := b.2 ≤ a.2

instance : DecidableRel scoreGe := fun a b => inferInstanceAs (Decidable (b.2 ≤ a.2))

instance : IsTotal (Hotel × Rat) scoreGe := ⟨fun a b => le_total b.2 a.2⟩

instance : IsTrans (Hotel × Rat) scoreGe := ⟨fun _ _ _ hab hbc => le_trans hbc hab⟩

/-- `rank_hotels`: score every offer then sort descending by score.  Python
`sorted` is a stable sort; `List.insertionSort` with the reflexive
descending relation `scoreGe` computes exactly that stable descending
permutation. -/
def rankHotels (p : Prefs) (hotels : List Hotel) : Except Unit (List (Hotel × Rat)) :=
  (scoredList p hotels).map (List.insertionSort scoreGe)

/-- Fixture: no budget and no amenity preferences. -/
def prefs0 : Prefs := {}

/-- Fixture: top-rated offer with many reviews. -/
def hA : Hotel := { rating := some 5, rating_count := .int 200 }

/-- Fixture: offer with every field absent. -/
def hB : Hotel := {}

/-- Fixture: offer whose review count is a non-numeric string. -/
def hBad : Hotel := { rating_count := .str "abc" }

/-- Inserting an element into a list keeps the subsequence of entries with
any fixed score `s` intact, the new element going in front of them exactly
when it carries that score: every entry skipped by `orderedInsert` has a
strictly larger score than the inserted one. -/
theorem filter_orderedInsert_score (s : Rat) (a : Hotel × Rat) (l : List (Hotel × Rat)) :
    (List.orderedInsert scoreGe a l).filter (fun x => decide (x.2 = s)) =
      if a.2 = s then a :: l.filter (fun x => decide (x.2 = s))
      else l.filter (fun x => decide (x.2 = s)) := by
  induction l with
  | nil =>
    by_cases h : a.2 = s <;> simp [List.orderedInsert, List.filter, h]
  | cons b t ih =>
    by_cases hab : scoreGe a b
    · by_cases has : a.2 = s <;> by_cases hbs : b.2 = s <;>
        simp [List.orderedInsert, hab, List.filter_cons, has, hbs]
    · have hlt : a.2 < b.2 := lt_of_not_le hab
      by_cases has : a.2 = s
      · have hbs : ¬ b.2 = s := fun he => absurd (has ▸ he ▸ hlt) (lt_irrefl _)
        simp [List.orderedInsert, hab, List.filter_cons, has, hbs, ih]
      · by_cases hbs : b.2 = s <;>
          simp [List.orderedInsert, hab, List.filter_cons, has, hbs, ih]

/-- Stability of the descending sort: for every score value `s`, the
entries carrying score `s` appear in the sorted output in the same order as
in the input. -/
theorem filter_insertionSort_score (s : Rat) (l : List (Hotel × Rat)) :
    (List.insertionSort scoreGe l).filter (fun x => decide (x.2 = s)) =
      l.filter (fun x => decide (x.2 = s)) := by
  induction l with
  | nil => rfl
  | cons a t ih =>
    by_cases h : a.2 = s <;>
      simp [List.insertionSort, filter_orderedInsert_score, h, ih, List.filter_cons]

/-- A successful scoring pass annotates each input offer in place: the
first components of the scored list are the input offers in order. -/
theorem scoredList_ok_map_fst (p : Prefs) :
    ∀ (hotels : List Hotel) (scored : List (Hotel × Rat)),
      scoredList p hotels = .ok scored → scored.map Prod.fst = hotels := by
  intro hotels
  induction hotels with
  | nil => intro scored h; cases h; rfl
  | cons a t ih =>
    intro scored h
    unfold scoredList at h
    cases hp : scorePair p a with
    | error e => rw [hp] at h; cases h
    | ok x =>
      cases ht : scoredList p t with
      | error e => rw [hp, ht] at h; cases h
      | ok xs =>
        rw [hp, ht] at h
        cases h
        have hx : x.1 = a := by
          unfold scorePair at hp
          cases hc : calculateScore p a with
          | error e => rw [hc] at hp; cases hp
          | ok sc => rw [hc] at hp; cases hp; rfl
        simp [hx, ih xs ht]

/-- C3: `rank_hotels` returns a permutation of its (scored) input — same
length, nothing dropped or duplicated — sorted in descending order of the
computed score, and offers with equal scores keep their original relative
input order (Python `sorted` is stable). -/
theorem rank_hotels_perm_sorted_stable (p : Prefs) (hotels : List Hotel)
    (out : List (Hotel × Rat)) (hout : rankHotels p hotels = .ok out) :
    out.length = hotels.length ∧
    (out.map Prod.fst).Perm hotels ∧
    List.Sorted scoreGe out ∧
    ∀ scored, scoredList p hotels = .ok scored →
      out.Perm scored ∧
      ∀ s : Rat, out.filter (fun x => decide (x.2 = s)) =
        scored.filter (fun x => decide (x.2 = s)) := by
  obtain ⟨scored0, hs0, hout0⟩ :
      ∃ sc, scoredList p hotels = .ok sc ∧ out = List.insertionSort scoreGe sc := by
    unfold rankHotels at hout
    cases hsc : scoredList p hotels with
    | error e => rw [hsc] at hout; cases hout
    | ok sc =>
      rw [hsc] at hout
      cases hout
      exact ⟨sc, rfl, rfl⟩
  have hfst : scored0.map Prod.fst = hotels := scoredList_ok_map_fst p hotels scored0 hs0
  have hperm : (List.insertionSort scoreGe scored0).Perm scored0 :=
    List.perm_insertionSort scoreGe scored0
  refine ⟨?_, ?_, ?_, ?_⟩
  · rw [hout0, List.length_insertionSort, ← hfst, List.length_map]
  · rw [hout0, ← hfst]
    exact hperm.map Prod.fst
  · rw [hout0]
    exact List.sorted_insertionSort scoreGe scored0
  · intro scored hsc
    rw [hs0] at hsc
    cases hsc
    exact ⟨hout0 ▸ hperm, fun s => hout0 ▸ filter_insertionSort_score s scored0⟩

/-- Fixture: the ranked output of `rank_hotels` on `[hB, hA]` with no
preferences. -/
def outW : List (Hotel × Rat) := [(hA, 65), (hB, 30)]

/-- Witness for C3 at a concrete batch: ranking `[hB, hA]` yields the
two-element descending list `outW`. -/
theorem rank_hotels_perm_sorted_stable_witness :
    outW.length = [hB, hA].length ∧
    (outW.map Prod.fst).Perm [hB, hA] ∧
    List.Sorted scoreGe outW := by
  have h := rank_hotels_perm_sorted_stable prefs0 [hB, hA] outW
    (by with_unfolding_all decide)
  exact ⟨h.1, h.2.1, h.2.2.1⟩

/-- C1 (code bug): the quality bonus is not an unconditional fifth factor.
On an offer with raw rating 5 (`rating10 = 10`) and 200 reviews the code
yields 65 = 15 + 25 + 10 + 15 — the `>= 9.0 → +10` bonus is skipped because
the bonus block sits inside the `review_count <= 50` branch — while the
spec's unconditional table yields 75. -/
theorem quality_bonus_not_unconditional :
    calculateScore prefs0 hA = .ok 65 ∧
    specScoreUnconditional prefs0 hA = .ok 75 ∧
    qualityBonus (rating10 (effRating hA)) = 10 := by
  with_unfolding_all decide

/-- Fixture: preference record whose `budget_max` is present but `0`. -/
def prefsB0 : Prefs := { budget_max := some 0 }

/-- Fixture: offer priced at 1. -/
def hP1 : Hotel := { price := some 1 }

/-- C2 counterexample: with `budget_max = 0` (set, so not "unset") and
`price = 1 > budget_max`, the claim demands a price factor of exactly `-5`,
but the code takes the `budget > 0` guard's else-branch and awards the
neutral `+15`. -/
theorem price_factor_not_minus_five_at_zero_budget :
    prefsB0.budget_max = some 0 ∧ effPrice hP1 = 1 ∧
    priceFactor prefsB0 hP1 = 15 ∧ (15 : Rat) ≠ -5 := by
  with_unfolding_all decide

/-- C2 (amended): the price factor is +15 when `budget_max` is unset or
non-positive; `30 * (1 - price/budget_max)` when `budget_max > 0` and
`price <= budget_max` (exactly 0 at `price = budget_max`); `-5` when
`budget_max > 0` and `price > budget_max`; a missing price is treated
as 0. -/
theorem price_factor_amended (p : Prefs) (h : Hotel) :
    (p.budget_max = none → priceFactor p h = 15) ∧
    (∀ b, p.budget_max = some b → b ≤ 0 → priceFactor p h = 15) ∧
    (∀ b, p.budget_max = some b → 0 < b → effPrice h ≤ b →
      priceFactor p h = 30 * (1 - effPrice h / b)) ∧
    (∀ b, p.budget_max = some b → 0 < b → effPrice h = b → priceFactor p h = 0) ∧
    (∀ b, p.budget_max = some b → 0 < b → b < effPrice h → priceFactor p h = -5) ∧
    (h.price = none → h.price_per_night = none → effPrice h = 0) := by
  have h3 : ∀ b, p.budget_max = some b → 0 < b → effPrice h ≤ b →
      priceFactor p h = 30 * (1 - effPrice h / b) := by
    intro b hb hpos hle
    simp [priceFactor, toFloatD, hb, hpos, hle]
  refine ⟨?_, ?_, h3, ?_, ?_, ?_⟩
  · intro hb
    simp [priceFactor, toFloatD, hb]
  · intro b hb hle
    simp [priceFactor, toFloatD, hb, not_lt.2 hle]
  · intro b hb hpos heq
    rw [h3 b hb hpos (le_of_eq heq), heq, div_self (ne_of_gt hpos)]
    ring
  · intro b hb hpos hlt
    simp [priceFactor, toFloatD, hb, hpos, not_le.2 hlt]
  · intro h1 h2
    simp [effPrice, pyOrQ, toFloatD, h1, h2]

/-- Fixture: preference record with a budget of 100. -/
def prefsW : Prefs := { budget_max := some 100 }

/-- Fixture: offer priced at 40. -/
def hW : Hotel := { price := some 40 }

/-- Witness for C2 (amended) at `budget_max = 100`, `price = 40`: the
in-budget formula branch applies. -/
theorem price_factor_amended_witness :
    priceFactor prefsW hW = 30 * (1 - effPrice hW / 100) :=
  (price_factor_amended prefsW hW).2.2.1 100 rfl (by norm_num)
    (by with_unfolding_all decide)

/-- C9: the rating factor is monotonically non-decreasing in the raw rating
fed to `rating10`, and `rating10` is clamped to at most 10 — even for raw
ratings above 5 — so the rating factor never exceeds 25. -/
theorem rating_factor_monotone_and_capped (r1 r2 : Rat) (hr : r1 ≤ r2) :
    ratingFactor r1 ≤ ratingFactor r2 ∧
    ∀ r : Rat, rating10 r ≤ 10 ∧ ratingFactor r ≤ 25 := by
  constructor
  · have h1 : rating10 r1 ≤ rating10 r2 :=
      max_le_max le_rfl (min_le_min (by linarith) le_rfl)
    exact mul_le_mul_of_nonneg_right h1 (by norm_num)
  · intro r
    have hcap : rating10 r ≤ 10 := max_le (by norm_num) (min_le_right _ _)
    refine ⟨hcap, ?_⟩
    calc rating10 r * (5 / 2) ≤ 10 * (5 / 2) :=
          mul_le_mul_of_nonneg_right hcap (by norm_num)
      _ = 25 := by norm_num

/-- Witness for C9 at raw ratings 1 ≤ 2. -/
theorem rating_factor_monotone_and_capped_witness :
    ratingFactor 1 ≤ ratingFactor 2 ∧
    ∀ r : Rat, rating10 r ≤ 10 ∧ ratingFactor r ≤ 25 :=
  rating_factor_monotone_and_capped 1 2 (by norm_num)

/-- C5 (code bug): a review-count field holding a non-numeric string makes
`int(...)` raise inside `calculate_score`, and `rank_hotels` has no guard,
so the whole batch aborts instead of skipping the offending offer; the same
batch without the bad offer ranks fine. -/
theorem review_count_string_aborts_batch :
    calculateScore prefs0 hBad = .error () ∧
    rankHotels prefs0 [hB, hBad] = .error () ∧
    rankHotels prefs0 [hB] = .ok [(hB, 30)] := by
  with_unfolding_all decide

/-- One record of a Makcorps `/mapping` response. -/
structure MapItem where
  type : Option String := none
  data_type : Option String := none
  value : Option Int := none
  document_id : Option Int := none
deriving DecidableEq, Repr

/-- The `reviews` sub-dictionary of a `/city` record. -/
structure CityReviews where
  rating : Option Rat := none
deriving DecidableEq, Repr

/-- One structured record of a Makcorps `/city` response, with the keys
`search_by_city_id` reads.  The ten `price1..price10` slots are a list in
slot order; slot values are the raw price strings.  The nested `reviews`
dict carries an optional numeric rating. -/
structure CityItem where
  name : Option String := none
  hotelId : Option Int := none
  value : Option Int := none
  document_id : Option Int := none
  prices : List (Option String) := []
  reviews : Option CityReviews := none
  parent_name : Option String := none
  location : Option String := none
  telephone : Option String := none
deriving DecidableEq, Repr

/-- One entry of a Makcorps `/city` response: either a structured hotel
record or trailing non-dict metadata (skipped by normalization). -/
inductive CityEntry where
  | item (it : CityItem)
  | meta (s : String)
deriving DecidableEq, Repr

/-- First-room price of a `/booking` response entry. -/
structure BookRoom where
  price : Option Rat := none
deriving DecidableEq, Repr

/-- Hotel metadata object of a `/booking` response. -/
structure BookMeta where
  name : Option String := none
  hotelid : Option Int := none
  address : Option String := none
deriving DecidableEq, Repr

/-- A truthy `/booking` response body: the room list (`data[0]` when it is a
list, else empty) and the metadata object (`data[1]` when present). -/
structure BookingData where
  rooms : List BookRoom := []
  meta : BookMeta := {}
deriving DecidableEq, Repr

/-- Responses the Makcorps HTTP layer (`_get`) hands back for each endpoint;
`none` stands for any failed call (non-200, network error) and for bodies
the code treats like one (a falsy or non-list `/mapping` body). -/
structure Env where
  mappingResp : String → Option (List MapItem)
  cityResp : Int → String → String → Int → Option (List CityEntry)
  bookingResp : String → String → String → Int → Option BookingData

/-- `MakcorpsClient.mapping`: empty list on any failure. -/
def mapping (env : Env) (name : String) : List MapItem :=
  (env.mappingResp name).getD []

/-- The first preference test of `_choose_id_from_mapping`:
`it.get('type') == 'GEO' or it.get('data_type') == 'LOCATION'`. -/
def isGeoItem (it : MapItem) : Bool :=
  it.type == some "GEO" || it.data_type == some "LOCATION"

/-- The second preference test: `it.get('type') == 'HOTEL'`. -/
def isHotelItem (it : MapItem) : Bool :=
  it.type == some "HOTEL"

/-- `MakcorpsClient._choose_id_from_mapping`: prefer the first GEO/LOCATION
item, then the first HOTEL item, then the first item, in each case taking
`it.get('value') or it.get('document_id')`. -/
def chooseIdFromMapping (env : Env) (name : String) : Option Int :=
  match mapping env name with
  | [] => none
  | first :: rest =>
    match (first :: rest).find? isGeoItem with
    | some it => pyOrI it.value it.document_id
    | none =>
      match (first :: rest).find? isHotelItem with
      | some it => pyOrI it.value it.document_id
      | none => pyOrI first.value first.document_id

/-- `re.sub(r"[^0-9,\.]", "", p).replace(',', '.')`: keep digits, commas and
dots, then turn commas into dots. -/
def cleanPrice (s : String) : String :=
  String.mk ((s.toList.filter (fun c => c.isDigit || c == ',' || c == '.')).map
    (fun c => if c = ',' then '.' else c))

/-- Price extraction of `search_by_city_id`: the first truthy slot among
`price1..price10`. -/
def firstPrice (prices : List (Option String)) : Option String :=
  match prices with
  | [] => none
  | p :: rest =>
    match p with
    | some s => if s ≠ "" then some s else firstPrice rest
    | none => firstPrice rest

/-- Normalization of one `/city` record into a canonical offer.  No
`amenities`, `price_per_night` or review-count key is ever emitted. -/
def normalizeCityItem (item : CityItem) : Hotel :=
  let price := firstPrice item.prices
  let rating := item.reviews.bind (fun r => r.rating)
  { vendor_name := item.name
    hotel_id := pyOrI item.hotelId (pyOrI item.value item.document_id)
    price_str := price
    price := price.bind (fun p => pyParseFloat (cleanPrice p))
    total_price := none
    rating := rating
    rating_raw := rating
    location := pyOrS item.parent_name item.location
    telephone := item.telephone
    affiliate_url := none }

/-- Body of `search_by_city_id` applied to a `/city` response: failures
give an empty list, non-dict entries are skipped, dict entries are
normalized. -/
def searchByCityIdResp (resp : Option (List CityEntry)) : List Hotel :=
  match resp with
  | none => []
  | some entries =>
    entries.filterMap (fun e =>
      match e with
      | .item it => some (normalizeCityItem it)
      | .meta _ => none)

/-- `MakcorpsClient.search_by_city_id` against the modelled HTTP layer. -/
def searchByCityId (env : Env) (cityid : Int) (ci co : String) (adults : Int) : List Hotel :=
  searchByCityIdResp (env.cityResp cityid ci co adults)

/-- Normalization of one `/booking` room into a canonical offer inside the
slug fallback of `search_hotels`. -/
def normalizeBookingRoom (meta : BookMeta) (location : String) (room : BookRoom) : Hotel :=
  { vendor_name := pyOrS meta.name (some location)
    hotel_id := pyOrI meta.hotelid none
    price := room.price
    total_price := none
    rating := none
    location := meta.address
    affiliate_url := none }

/-- The slug-style `/booking` fallback of `search_hotels`: a failed or
falsy response yields an empty list. -/
def bookingFallback (env : Env) (location ci co : String) (guests : Int) : List Hotel :=
  match env.bookingResp location ci co guests with
  | none => []
  | some data => data.rooms.map (normalizeBookingRoom data.meta location)

/-- `MakcorpsClient.search_hotels`: numeric location strings go straight to
the city endpoint; otherwise the mapping lookup is tried, and a truthy
resolved id goes to the city endpoint; otherwise the `/booking` slug
fallback runs; a total function, so no path raises to the caller. -/
def searchHotels (env : Env) (location ci co : String) (guests : Int) : List Hotel :=
  match pyParseInt location with
  | some v => searchByCityId env v ci co guests
  | none =>
    match chooseIdFromMapping env location with
    | some c =>
      if c ≠ 0 then searchByCityId env c ci co guests
      else bookingFallback env location ci co guests
    | none => bookingFallback env location ci co guests

/-- A list whose members all fail `p` has `find? p = none`; restated from
the library for direct use below. -/
theorem find?_eq_none_of_all_false {α : Type} (p : α → Bool) (l : List α)
    (h : ∀ x ∈ l, p x = false) : l.find? p = none := by
  rw [List.find?_eq_none]
  intro x hx
  rw [h x hx]
  exact Bool.false_ne_true

/-- `find?` returns the head of the first suffix whose head satisfies `p`
when everything before it fails `p`. -/
theorem find?_prefix_first {α : Type} (p : α → Bool) :
    ∀ (pre : List α) (it : α) (post : List α),
      (∀ j ∈ pre, p j = false) → p it = true →
      (pre ++ it :: post).find? p = some it := by
  intro pre
  induction pre with
  | nil =>
    intro it post _ hit
    simp [List.find?, hit]
  | cons a t ih =>
    intro it post hpre hit
    have ha : p a = false := hpre a (List.mem_cons_self a t)
    simp only [List.cons_append, List.find?, ha]
    exact ih it post (fun j hj => hpre j (List.mem_cons_of_mem a hj)) hit

/-- C7: `search_hotels` follows the ordered resolution policy, first
success wins: an integer-parsing location goes straight to the city
endpoint (independently of the name-lookup layer); otherwise the mapping
lookup is consulted, preferring the first GEO/LOCATION item, then the
first HOTEL item, then the first item; a falsy resolved id falls back to
the slug-style `/booking` lookup; and when that also fails the result is
the empty list (the function is total, so nothing raises to the caller). -/
theorem search_hotels_resolution_policy (env env2 : Env) (loc ci co : String) (g : Int) :
    (∀ v, pyParseInt loc = some v →
      searchHotels env loc ci co g = searchByCityId env v ci co g) ∧
    (∀ v, pyParseInt loc = some v → env.cityResp = env2.cityResp →
      searchHotels env loc ci co g = searchHotels env2 loc ci co g) ∧
    (∀ c, pyParseInt loc = none → chooseIdFromMapping env loc = some c → c ≠ 0 →
      searchHotels env loc ci co g = searchByCityId env c ci co g) ∧
    (pyParseInt loc = none →
      (chooseIdFromMapping env loc = none ∨ chooseIdFromMapping env loc = some 0) →
      searchHotels env loc ci co g = bookingFallback env loc ci co g) ∧
    (pyParseInt loc = none →
      (chooseIdFromMapping env loc = none ∨ chooseIdFromMapping env loc = some 0) →
      env.bookingResp loc ci co g = none →
      searchHotels env loc ci co g = []) ∧
    (∀ pre it post, mapping env loc = pre ++ it :: post →
      (∀ j ∈ pre, isGeoItem j = false) → isGeoItem it = true →
      chooseIdFromMapping env loc = pyOrI it.value it.document_id) ∧
    (∀ pre it post, mapping env loc = pre ++ it :: post →
      (∀ j ∈ mapping env loc, isGeoItem j = false) →
      (∀ j ∈ pre, isHotelItem j = false) → isHotelItem it = true →
      chooseIdFromMapping env loc = pyOrI it.value it.document_id) ∧
    (∀ first rest, mapping env loc = first :: rest →
      (∀ j ∈ mapping env loc, isGeoItem j = false ∧ isHotelItem j = false) →
      chooseIdFromMapping env loc = pyOrI first.value first.document_id) := by
  have h4 : pyParseInt loc = none →
      (chooseIdFromMapping env loc = none ∨ chooseIdFromMapping env loc = some 0) →
      searchHotels env loc ci co g = bookingFallback env loc ci co g := by
    intro h1 h2
    rcases h2 with h | h <;> simp [searchHotels, h1, h]
  refine ⟨?_, ?_, ?_, h4, ?_, ?_, ?_, ?_⟩
  · intro v hv
    simp [searchHotels, hv]
  · intro v hv hcity
    simp [searchHotels, hv, searchByCityId, hcity]
  · intro c h1 h2 h3
    simp [searchHotels, h1, h2, h3]
  · intro h1 h2 h3
    rw [h4 h1 h2]
    simp [bookingFallback, h3]
  · intro pre it post hm hpre hit
    cases hml : mapping env loc with
    | nil => rw [hml] at hm; exact absurd hm (by simp)
    | cons f r =>
      rw [hml] at hm
      simp only [chooseIdFromMapping, hml]
      rw [hm, find?_prefix_first isGeoItem pre it post hpre hit]
  · intro pre it post hm hgeo hpre hit
    cases hml : mapping env loc with
    | nil => rw [hml] at hm; exact absurd hm (by simp)
    | cons f r =>
      rw [hml] at hm
      rw [hml] at hgeo
      simp only [chooseIdFromMapping, hml]
      rw [find?_eq_none_of_all_false isGeoItem (f :: r) hgeo]
      rw [hm, find?_prefix_first isHotelItem pre it post hpre hit]
  · intro first rest hm hall
    rw [hm] at hall
    simp only [chooseIdFromMapping, hm]
    rw [find?_eq_none_of_all_false isGeoItem (first :: rest) (fun j hj => (hall j hj).1)]
    rw [find?_eq_none_of_all_false isHotelItem (first :: rest) (fun j hj => (hall j hj).2)]

/-- Fixture: an environment in which every Makcorps call fails. -/
def env0 : Env :=
  { mappingResp := fun _ => none
    cityResp := fun _ _ _ _ => none
    bookingResp := fun _ _ _ _ => none }

/-- Witness for C7: the purely numeric location string `"482"` is resolved
as a direct city identifier. -/
theorem search_hotels_resolution_policy_witness :
    searchHotels env0 "482" "2026-01-01" "2026-01-02" 2 =
      searchByCityId env0 482 "2026-01-01" "2026-01-02" 2 :=
  (search_hotels_resolution_policy env0 env0 "482" "2026-01-01" "2026-01-02" 2).1
    482 (by with_unfolding_all decide)

/-- C10: every canonical offer produced by the `/city` normalization
carries no amenities field, so for any non-empty preference set the
amenity factor takes the neutral branch and contributes exactly +10. -/
theorem makcorps_city_offers_amenity_neutral (resp : Option (List CityEntry)) (p : Prefs)
    (h : Hotel) (hmem : h ∈ searchByCityIdResp resp) (_hp : effPrefAmenities p ≠ []) :
    h.amenities = none ∧ amenityFactor p h = 10 := by
  have hnone : h.amenities = none := by
    cases resp with
    | none => simp [searchByCityIdResp] at hmem
    | some entries =>
      simp only [searchByCityIdResp, List.mem_filterMap] at hmem
      obtain ⟨e, _, hhe⟩ := hmem
      cases e with
      | item it =>
        cases hhe
        rfl
      | meta s => cases hhe
  refine ⟨hnone, ?_⟩
  simp [amenityFactor, effAmenities, hnone]

/-- Fixture: one structured `/city` record. -/
def cityItem0 : CityItem :=
  { name := some "Hotel X"
    hotelId := some 7
    prices := [none, some "$120"]
    reviews := some { rating := some 4 }
    parent_name := some "Paris" }

/-- Fixture: a preference record asking for wifi. -/
def prefsAm : Prefs := { preferences := some ["wifi"] }

/-- Witness for C10 on a one-record `/city` response. -/
theorem makcorps_city_offers_amenity_neutral_witness :
    (normalizeCityItem cityItem0).amenities = none ∧
      amenityFactor prefsAm (normalizeCityItem cityItem0) = 10 :=
  makcorps_city_offers_amenity_neutral (some [.item cityItem0]) prefsAm
    (normalizeCityItem cityItem0) (by with_unfolding_all decide)
    (by with_unfolding_all decide)

/-- The error dictionaries returned by `ChatbotAIEngine.parse_user_intent`:
`intent` (always `"help"`), the `error` string, and the optional `status`
and `raw` keys some branches attach. -/
structure ErrDict where
  intent : String
  error : String
  status : Option Nat := none
  raw : Option String := none
deriving DecidableEq, Repr

/-- Result of `parse_user_intent`: either the dict parsed from the model
output, or one of the error dictionaries. -/
inductive PUIResult (α : Type) where
  | parsed (value : α)
  | errDict (e : ErrDict)
deriving DecidableEq, Repr

/-- `choices[0]` of a Groq completion body; `content` is the text at
`message.content` (absent keys collapse to `""` in the code). -/
structure Choice where
  content : Option String := none
deriving DecidableEq, Repr

/-- A 200-status Groq completion body: its `choices` list. -/
structure GroqBody where
  choices : List Choice := []
deriving DecidableEq, Repr

/-- Outcome of the completion call as `parse_user_intent` observes it:
missing API key, `requests.Timeout`, a non-200 status, any other raised
exception (caught by the final `except Exception`), or a 200 body. -/
inductive GroqOutcome where
  | noApiKey
  | timeout
  | httpError (statusCode : Nat)
  | exn (message : String)
  | ok (body : GroqBody)
deriving DecidableEq, Repr

/-- `ChatbotAIEngine.parse_user_intent` over the modelled call outcome.
`jsonLoads` stands for `json.loads` on the stripped response text (`none`
for a `JSONDecodeError`).  Every failure branch returns a dict with
`intent='help'`; the function is total, so it never raises. -/
def parseUserIntent {α : Type} (jsonLoads : String → Option α) :
    GroqOutcome → PUIResult α
  | .noApiKey => .errDict { intent := "help", error := "API key not configured" }
  | .timeout => .errDict { intent := "help", error := "Timeout" }
  | .exn m => .errDict { intent := "help", error := m }
  | .httpError s => .errDict { intent := "help", error := "API Error", status := some s }
  | .ok body =>
    match body.choices with
    | [] => .errDict { intent := "help", error := "No choices in response" }
    | c :: _ =>
      let text := (c.content.getD "").trim
      match jsonLoads text with
      | some p => .parsed p
      | none => .errDict { intent := "help", error := "Parse Error", raw := some text }

/-- Fixture: a `json.loads` that fails on every input. -/
def jlNone : String → Option Unit := fun _ => none

/-- C6 counterexample: on unparseable model output the code returns
`error='Parse Error'` with an extra `raw` key — not the machine-readable
token `"parse_error"` and not exactly `\x7bintent, error\x7d`. -/
theorem parse_error_dict_not_machine_token :
    parseUserIntent jlNone (.ok { choices := [{ content := some "not json" }] }) =
      .errDict { intent := "help", error := "Parse Error", raw := some "not json" } ∧
    ("Parse Error" : String) ≠ "parse_error" ∧
    ErrDict.raw { intent := "help", error := "Parse Error", raw := some "not json" } ≠ none := by
  refine ⟨?_, by decide, by decide⟩
  with_unfolding_all decide

/-- C6 (amended): `parse_user_intent` never raises and on every failure
returns `intent='help'` with an `error` field holding the human-readable
reason the code actually uses — `'API key not configured'`, `'Timeout'`,
`'API Error'` (plus `status`), `'No choices in response'`, `'Parse Error'`
(plus `raw`), or the stringified exception — while parseable output is
returned as-is. -/
theorem parse_user_intent_error_taxonomy {α : Type} (jl : String → Option α) :
    (parseUserIntent jl .noApiKey =
      .errDict { intent := "help", error := "API key not configured" }) ∧
    (parseUserIntent jl .timeout = .errDict { intent := "help", error := "Timeout" }) ∧
    (∀ s, parseUserIntent jl (.httpError s) =
      .errDict { intent := "help", error := "API Error", status := some s }) ∧
    (∀ m, parseUserIntent jl (.exn m) = .errDict { intent := "help", error := m }) ∧
    (parseUserIntent jl (.ok { choices := [] }) =
      .errDict { intent := "help", error := "No choices in response" }) ∧
    (∀ c rest, jl ((c.content.getD "").trim) = none →
      parseUserIntent jl (.ok { choices := c :: rest }) =
        .errDict { intent := "help", error := "Parse Error",
                   raw := some ((c.content.getD "").trim) }) ∧
    (∀ c rest p, jl ((c.content.getD "").trim) = some p →
      parseUserIntent jl (.ok { choices := c :: rest }) = .parsed p) ∧
    (∀ o e, parseUserIntent jl o = .errDict e → e.intent = "help") := by
  refine ⟨rfl, rfl, fun s => rfl, fun m => rfl, rfl, ?_, ?_, ?_⟩
  · intro c rest hjl
    simp [parseUserIntent, hjl]
  · intro c rest p hjl
    simp [parseUserIntent, hjl]
  · intro o e he
    cases o with
    | noApiKey => cases he; rfl
    | timeout => cases he; rfl
    | httpError s => cases he; rfl
    | exn m => cases he; rfl
    | ok body =>
      cases hb : body.choices with
      | nil =>
        simp only [parseUserIntent, hb] at he
        cases he; rfl
      | cons c rest =>
        simp only [parseUserIntent, hb] at he
        cases hjl : jl ((c.content.getD "").trim) with
        | none => simp only [hjl] at he; cases he; rfl
        | some p => simp only [hjl] at he; cases he

/-- Witness for C6 (amended): a timeout yields the `'Timeout'` dict, and a
choice whose content does not parse yields the `'Parse Error'` dict. -/
theorem parse_user_intent_error_taxonomy_witness :
    parseUserIntent jlNone .timeout = .errDict { intent := "help", error := "Timeout" } ∧
    parseUserIntent jlNone (.ok { choices := [{ content := some "xx" }] }) =
      .errDict { intent := "help", error := "Parse Error", raw := some "xx" } := by
  refine ⟨(parse_user_intent_error_taxonomy jlNone).2.1, ?_⟩
  have h := (parse_user_intent_error_taxonomy jlNone).2.2.2.2.2.1
    { content := some "xx" } [] (by with_unfolding_all decide)
  rw [h]
  with_unfolding_all decide

/-- `intent = intent_data.get('intent', 'help')` as in
`ChatbotViewSet.send_message` and `orchestrate_response`: the default kicks
in only when the key is missing. -/
def getIntent (v : Option String) : String := v.getD "help"

/-- A recommendation as `generate_response` displays it; the rendered
values (rating, price, ...) are modelled as the strings they print as. -/
structure DisplayHotel where
  name : Option String := none
  rating : Option String := none
  price_per_night : Option String := none
  location : Option String := none
  affiliate_url : Option String := none
  url : Option String := none
deriving DecidableEq, Repr

/-- The lines `generate_response` appends for entry number `i`. -/
def renderHotelLines (i : Nat) (hotel : DisplayHotel) : List String :=
  let name := hotel.name.getD "—"
  let rating := hotel.rating.getD "N/A"
  let price := hotel.price_per_night.getD "N/A"
  let location := hotel.location.getD "—"
  let url := (pyOrS (pyOrS hotel.affiliate_url hotel.url) (some "")).getD ""
  let numStr := toString i
  [s!"{numStr}. {name} — ⭐ {rating}/10", s!"    {price}€/nuit — {location}"] ++
    (if url ≠ "" then [s!"    Réserver : {url}"] else []) ++ [""]

/-- `ChatbotAIEngine.generate_response`: the search branch renders up to 5
offers numbered from 1; `help` and `refine` have fixed texts; anything
else — including `info` and unknown intents — gets the generic capability
statement of the final return. -/
def generateResponse (intent : String) (recommendations : List DisplayHotel) : String :=
  if intent = "search" then
    if recommendations = [] then
      "Je n\x27ai pas trouvé de résultats. Vérifiez les dates et le lieu."
    else
      let count := toString recommendations.length
      String.intercalate "\n"
        (s!"J\x27ai trouvé {count} excellents hôtels ! Voici les meilleurs :" ::
          (List.enumFrom 1 (recommendations.take 5)).flatMap
            (fun pr => renderHotelLines pr.1 pr.2))
  else if intent = "help" then
    "Je peux vous aider à trouver les meilleurs hôtels ! Indiquez vos dates et votre destination."
  else if intent = "refine" ∨ intent = "re ne" ∨ intent = "rene" then
    "Dites-moi comment affiner votre recherche : budget, équipements, ou type de chambre."
  else
    "Je suis spécialisée dans les recommandations d\x27hôtels. Comment puis-je vous aider ?"

/-- C8 counterexample: an intent value outside the enumeration is not
turned into `help` — `get('intent', 'help')` keeps it, and the response it
receives is the generic capability statement, not the help text. -/
theorem unknown_intent_not_treated_as_help :
    getIntent (some "banana") = "banana" ∧ ("banana" : String) ≠ "help" ∧
    generateResponse "banana" [] ≠ generateResponse "help" [] := by
  decide

/-- C8 (amended): only a missing intent key falls back to `help`; a present
value — known or unknown — is passed through unchanged, and any value
outside `search`, `help` and the refine spellings receives the generic
default response rather than being treated as `help`. -/
theorem intent_fallback_amended (v : Option String) (recs : List DisplayHotel) :
    (v = none → getIntent v = "help") ∧
    (∀ s, v = some s → getIntent v = s) ∧
    (∀ s, s ≠ "search" → s ≠ "help" → s ≠ "refine" → s ≠ "re ne" → s ≠ "rene" →
      generateResponse s recs =
        "Je suis spécialisée dans les recommandations d\x27hôtels. Comment puis-je vous aider ?") := by
  refine ⟨?_, ?_, ?_⟩
  · intro hv
    simp [getIntent, hv]
  · intro s hv
    simp [getIntent, hv]
  · intro s h1 h2 h3 h4 h5
    simp [generateResponse, h1, h2, h3, h4, h5]

/-- Witness for C8 (amended) at the unknown intent `"banana"`. -/
theorem intent_fallback_amended_witness :
    getIntent (some "banana") = "banana" ∧
    generateResponse "banana" [] =
      "Je suis spécialisée dans les recommandations d\x27hôtels. Comment puis-je vous aider ?" := by
  have h := intent_fallback_amended (some "banana") []
  exact ⟨h.2.1 "banana" rfl,
    h.2.2 "banana" (by decide) (by decide) (by decide) (by decide) (by decide)⟩

/-- A `guests` value carried by an intent record: the model may emit a
number or a string; `int(...)` on it can fail. -/
inductive GuestVal where
  | int (n : Int)
  | str (s : String)
deriving DecidableEq, Repr

/-- Python truthiness of a guests value. -/
def GuestVal.truthy : GuestVal → Bool
  | .int n => n ≠ 0
  | .str s => s ≠ ""

/-- `int(intent_data['guests'])`, `none` for a raised
`ValueError`/`TypeError` (caught and ignored by the view). -/
def pyIntOfGuest : GuestVal → Option Int
  | .int n => some n
  | .str s => pyParseInt s

/-- A `budget_max` value carried by an intent record; `float(...)` on it
can fail. -/
inductive BudgetVal where
  | num (q : Rat)
  | str (s : String)
deriving DecidableEq, Repr

/-- `float(intent_data['budget_max'])`, `none` for a raised
`ValueError`/`TypeError` (on which the view assigns `None`). -/
def pyFloatOfBudget : BudgetVal → Option Rat
  | .num q => some q
  | .str s => pyParseFloat s

/-- The stored per-session `UserSearchPreference` fields the merge step of
`send_message` touches. -/
structure StoredPrefs where
  location : Option String := none
  check_in : Option String := none
  check_out : Option String := none
  guests : Option Int := none
  budget_max : Option Rat := none
  preferences : Option (List String) := none
deriving DecidableEq, Repr

/-- The fields of one turn's intent record as the merge step reads them;
`none` is a missing or JSON-null key. -/
structure IntentData where
  location : Option String := none
  check_in : Option String := none
  check_out : Option String := none
  guests : Option GuestVal := none
  budget_max : Option BudgetVal := none
  preferences : Option (List String) := none
deriving DecidableEq, Repr

/-- Truthiness of an optional string (`None` and `""` are falsy). -/
def truthyStrOpt : Option String → Bool
  | some s => s ≠ ""
  | none => false

/-- Truthiness of an optional list (`None` and `[]` are falsy). -/
def truthyListOpt : Option (List String) → Bool
  | some l => l ≠ []
  | none => false

/-- Truthiness of an optional guests value. -/
def truthyGuestOpt : Option GuestVal → Bool
  | some g => g.truthy
  | none => false

/-- `if intent_data.get('location'): prefs.location = intent_data['location']`. -/
def mergeLocation (s : StoredPrefs) (d : IntentData) : StoredPrefs :=
  if truthyStrOpt d.location then { s with location := d.location } else s

/-- `if intent_data.get('check_in'): ...`. -/
def mergeCheckIn (s : StoredPrefs) (d : IntentData) : StoredPrefs :=
  if truthyStrOpt d.check_in then { s with check_in := d.check_in } else s

/-- `if intent_data.get('check_out'): ...`. -/
def mergeCheckOut (s : StoredPrefs) (d : IntentData) : StoredPrefs :=
  if truthyStrOpt d.check_out then { s with check_out := d.check_out } else s

/-- `if intent_data.get('guests'): try: prefs.guests = int(...) except: pass`. -/
def mergeGuests (s : StoredPrefs) (d : IntentData) : StoredPrefs :=
  if truthyGuestOpt d.guests then
    match d.guests with
    | some g =>
      match pyIntOfGuest g with
      | some n => { s with guests := some n }
      | none => s
    | none => s
  else s

/-- `if intent_data.get('budget_max') is not None: try: prefs.budget_max =
float(...) except: prefs.budget_max = None` — a non-null but unparsable
value clears the stored budget. -/
def mergeBudget (s : StoredPrefs) (d : IntentData) : StoredPrefs :=
  match d.budget_max with
  | some bv => { s with budget_max := pyFloatOfBudget bv }
  | none => s

/-- `if intent_data.get('preferences'): prefs.preferences = ...`. -/
def mergePreferencesStep (s : StoredPrefs) (d : IntentData) : StoredPrefs :=
  if truthyListOpt d.preferences then { s with preferences := d.preferences } else s

/-- The preference-merge block of `ChatbotViewSet.send_message`: the six
field updates applied in source order. -/
def mergePrefs (stored : StoredPrefs) (d : IntentData) : StoredPrefs :=
  mergePreferencesStep
    (mergeBudget
      (mergeGuests
        (mergeCheckOut
          (mergeCheckIn
            (mergeLocation stored d) d) d) d) d) d

/-- The merged guests value in isolation. -/
def mergedGuestsVal (old : Option Int) (g : Option GuestVal) : Option Int :=
  if truthyGuestOpt g then
    match g with
    | some gv =>
      match pyIntOfGuest gv with
      | some n => some n
      | none => old
    | none => old
  else old

/-- The merged budget value in isolation. -/
def mergedBudgetVal (old : Option Rat) (bv : Option BudgetVal) : Option Rat :=
  match bv with
  | some b => pyFloatOfBudget b
  | none => old

theorem mergeLocation_eq (s : StoredPrefs) (d : IntentData) :
    mergeLocation s d =
      { s with location := if truthyStrOpt d.location then d.location else s.location } := by
  unfold mergeLocation
  split <;> rfl

theorem mergeCheckIn_eq (s : StoredPrefs) (d : IntentData) :
    mergeCheckIn s d =
      { s with check_in := if truthyStrOpt d.check_in then d.check_in else s.check_in } := by
  unfold mergeCheckIn
  split <;> rfl

theorem mergeCheckOut_eq (s : StoredPrefs) (d : IntentData) :
    mergeCheckOut s d =
      { s with check_out := if truthyStrOpt d.check_out then d.check_out else s.check_out } := by
  unfold mergeCheckOut
  split <;> rfl

theorem mergeGuests_eq (s : StoredPrefs) (d : IntentData) :
    mergeGuests s d = { s with guests := mergedGuestsVal s.guests d.guests } := by
  unfold mergeGuests mergedGuestsVal
  cases hg : truthyGuestOpt d.guests with
  | false => simp
  | true =>
    simp only [if_pos rfl, if_true]
    cases d.guests with
    | none => simp
    | some gv =>
      cases hpi : pyIntOfGuest gv with
      | none => simp [hpi]
      | some n => simp [hpi]

theorem mergeBudget_eq (s : StoredPrefs) (d : IntentData) :
    mergeBudget s d = { s with budget_max := mergedBudgetVal s.budget_max d.budget_max } := by
  unfold mergeBudget mergedBudgetVal
  cases d.budget_max with
  | none => rfl
  | some bv => rfl

theorem mergePreferencesStep_eq (s : StoredPrefs) (d : IntentData) :
    mergePreferencesStep s d =
      { s with preferences :=
          if truthyListOpt d.preferences then d.preferences else s.preferences } := by
  unfold mergePreferencesStep
  split <;> rfl

/-- Field-wise characterization of the sequential merge: the six updates
touch disjoint fields. -/
theorem mergePrefs_eq (stored : StoredPrefs) (d : IntentData) :
    mergePrefs stored d =
      { location := if truthyStrOpt d.location then d.location else stored.location
        check_in := if truthyStrOpt d.check_in then d.check_in else stored.check_in
        check_out := if truthyStrOpt d.check_out then d.check_out else stored.check_out
        guests := mergedGuestsVal stored.guests d.guests
        budget_max := mergedBudgetVal stored.budget_max d.budget_max
        preferences :=
          if truthyListOpt d.preferences then d.preferences else stored.preferences } := by
  unfold mergePrefs
  rw [mergeLocation_eq, mergeCheckIn_eq, mergeCheckOut_eq, mergeGuests_eq,
    mergeBudget_eq, mergePreferencesStep_eq]

/-- Fixture: stored preferences with a location and a budget. -/
def storedP : StoredPrefs := { location := some "Paris", budget_max := some 100 }

/-- Fixture: intent record carrying a non-null but empty location. -/
def dEmptyLoc : IntentData := { location := some "" }

/-- Fixture: intent record carrying a non-null but unparsable budget. -/
def dBadBudget : IntentData := { budget_max := some (.str "abc") }

/-- C4 counterexample: the merge is keyed on truthiness and can clear
state, not on non-null overwrite.  A non-null empty-string location leaves
the stored `"Paris"` untouched (the claim demands it be overwritten), and a
non-null unparsable `budget_max` wipes the stored budget to null (the claim
says state is never cleared). -/
theorem merge_not_nonnull_overwrite :
    dEmptyLoc.location = some "" ∧
    (mergePrefs storedP dEmptyLoc).location = some "Paris" ∧
    some "" ≠ (some "Paris" : Option String) ∧
    dBadBudget.budget_max = some (.str "abc") ∧
    storedP.budget_max = some 100 ∧
    (mergePrefs storedP dBadBudget).budget_max = none := by
  with_unfolding_all decide

/-- C4 (amended): a null or absent intent field always leaves the stored
value unchanged; a string field overwrites exactly when truthy (non-null
and non-empty), as does the preference list; `guests` overwrites when
truthy and integer-parsable and is ignored otherwise; `budget_max`
overwrites whenever non-null — with the parsed value when parsable, and
with null (clearing the stored budget) when not. -/
theorem merge_prefs_amended (stored : StoredPrefs) (d : IntentData) :
    (d.location = none → (mergePrefs stored d).location = stored.location) ∧
    (d.location = some "" → (mergePrefs stored d).location = stored.location) ∧
    (∀ s, d.location = some s → s ≠ "" → (mergePrefs stored d).location = some s) ∧
    (d.check_in = none → (mergePrefs stored d).check_in = stored.check_in) ∧
    (d.check_in = some "" → (mergePrefs stored d).check_in = stored.check_in) ∧
    (∀ s, d.check_in = some s → s ≠ "" → (mergePrefs stored d).check_in = some s) ∧
    (d.check_out = none → (mergePrefs stored d).check_out = stored.check_out) ∧
    (d.check_out = some "" → (mergePrefs stored d).check_out = stored.check_out) ∧
    (∀ s, d.check_out = some s → s ≠ "" → (mergePrefs stored d).check_out = some s) ∧
    (d.guests = none → (mergePrefs stored d).guests = stored.guests) ∧
    (∀ g, d.guests = some g → g.truthy = false →
      (mergePrefs stored d).guests = stored.guests) ∧
    (∀ g n, d.guests = some g → g.truthy = true → pyIntOfGuest g = some n →
      (mergePrefs stored d).guests = some n) ∧
    (∀ g, d.guests = some g → g.truthy = true → pyIntOfGuest g = none →
      (mergePrefs stored d).guests = stored.guests) ∧
    (d.budget_max = none → (mergePrefs stored d).budget_max = stored.budget_max) ∧
    (∀ bv, d.budget_max = some bv →
      (mergePrefs stored d).budget_max = pyFloatOfBudget bv) ∧
    (d.preferences = none → (mergePrefs stored d).preferences = stored.preferences) ∧
    (d.preferences = some [] → (mergePrefs stored d).preferences = stored.preferences) ∧
    (∀ l, d.preferences = some l → l ≠ [] → (mergePrefs stored d).preferences = some l) := by
  rw [mergePrefs_eq]
  refine ⟨?_, ?_, ?_, ?_, ?_, ?_, ?_, ?_, ?_, ?_, ?_, ?_, ?_, ?_, ?_, ?_, ?_, ?_⟩
  · intro h
    simp [truthyStrOpt, h]
  · intro h
    simp [truthyStrOpt, h]
  · intro s h hne
    simp [truthyStrOpt, h, hne]
  · intro h
    simp [truthyStrOpt, h]
  · intro h
    simp [truthyStrOpt, h]
  · intro s h hne
    simp [truthyStrOpt, h, hne]
  · intro h
    simp [truthyStrOpt, h]
  · intro h
    simp [truthyStrOpt, h]
  · intro s h hne
    simp [truthyStrOpt, h, hne]
  · intro h
    simp [mergedGuestsVal, truthyGuestOpt, h]
  · intro g h ht
    simp [mergedGuestsVal, truthyGuestOpt, h, ht]
  · intro g n h ht hpi
    simp [mergedGuestsVal, truthyGuestOpt, h, ht, hpi]
  · intro g h ht hpi
    simp [mergedGuestsVal, truthyGuestOpt, h, ht, hpi]
  · intro h
    simp [mergedBudgetVal, h]
  · intro bv h
    simp [mergedBudgetVal, h]
  · intro h
    simp [truthyListOpt, h]
  · intro h
    simp [truthyListOpt, h]
  · intro l h hne
    simp [truthyListOpt, h, hne]

/-- Fixture: intent record with a truthy location and an unparsable
budget. -/
def dW : IntentData := { location := some "Lyon", budget_max := some (.str "abc") }

/-- Witness for C4 (amended): the truthy location overwrites and the
unparsable budget resolves to null. -/
theorem merge_prefs_amended_witness :
    (mergePrefs storedP dW).location = some "Lyon" ∧
    (mergePrefs storedP dW).budget_max = pyFloatOfBudget (.str "abc") := by
  have h := merge_prefs_amended storedP dW
  exact ⟨h.2.2.1 "Lyon" rfl (by decide),
    h.2.2.2.2.2.2.2.2.2.2.2.2.2.2.1 (.str "abc") rfl⟩
